import Mathlib

/-!
Verification of the Midterm marketing-budget pipeline
(`src/Midterm/main.py` and `src/Midterm/budget_optimizer_gui.py`).

The pipeline is embedded shallowly over the reals:
* the response curves `roi_curve_A`, `roi_curve_B` are transcribed directly;
* the call to `scipy.optimize.minimize` (SLSQP-class constrained solver) is
  modelled by the exact optimum of the constrained concave program, which any
  correctly converged KKT solver reaches on this problem; the theorem
  `minimize_model_is_optimal` below proves that the modelled point really is
  the global maximizer over the feasible segment, justifying the model;
* NumPy's globally seeded generator becomes explicit state passing with an
  abstract deterministic step function;
* `scipy.stats.ttest_ind` is modelled from its documented default behaviour
  (equal-variance pooled two-sample t-test), with non-finite float results
  (NaN) modelled as `none`;
* `scipy.integrate.quad` over an interval becomes the interval integral.
-/

namespace Midterm

/-- `roi_curve_A` from main.py line 28: `2000 * (1 - np.exp(-0.0003 * budget))`. -/
noncomputable def roi_curve_A (budget : ℝ) : ℝ :=
  2000 * (1 - Real.exp (-0.0003 * budget))

/-- `roi_curve_B` from main.py line 32: `1500 * (1 - np.exp(-0.0004 * budget))`. -/
noncomputable def roi_curve_B (budget : ℝ) : ℝ :=
  1500 * (1 - Real.exp (-0.0004 * budget))

/-- The objective handed to the solver in `optimize_budget`
(main.py lines 38-39): `-(roi_curve_A(x[0]) + roi_curve_B(x[1]))`. -/
noncomputable def neg_total_roi (x1 x2 : ℝ) : ℝ :=
  -(roi_curve_A x1 + roi_curve_B x2)

/-- The feasible set handed to the solver (main.py lines 41-42): the equality
constraint `total_budget - sum(x) = 0` and the bounds `(0, total_budget)` on
each coordinate. -/
def feasible (b x1 x2 : ℝ) : Prop :=
  x1 + x2 = b ∧ 0 ≤ x1 ∧ x1 ≤ b ∧ 0 ≤ x2 ∧ x2 ≤ b

/-- The record returned by `scipy.optimize.minimize`: the argument vector
`x`, the objective value `fun` (spelled `fn`, since `fun` is a keyword), and
the convergence flag `success`. -/
structure OptimizeResult where
  x1 : ℝ
  x2 : ℝ
  fn : ℝ
  success : Bool

/-- Lines 45-46 of main.py after the solver call: `return result.x, -result.fun`.
The source reads only `x` and `fun` from the solver's result. -/
def return_from_result (r : OptimizeResult) : (ℝ × ℝ) × ℝ :=
  ((r.x1, r.x2), -r.fn)

/-- Model of `scipy.optimize.minimize` on the Allocator's problem: a converged
SLSQP-class solver returns the exact optimum of the constrained concave
program. Since both marginal-return coefficients are `2000 * 0.0003 = 0.6`
and `1500 * 0.0004 = 0.6`, the KKT point of the problem is `(4b/7, 3b/7)`;
`minimize_model_is_optimal` proves this point globally optimal on the
constraint line. `fn` is the objective evaluated there, `success` is true. -/
noncomputable def minimize_model (b : ℝ) : OptimizeResult :=
  ⟨4 * b / 7, 3 * b / 7, neg_total_roi (4 * b / 7) (3 * b / 7), true⟩

/-- `optimize_budget` from main.py lines 37-46: run the solver on the
objective, constraint and bounds, then `return result.x, -result.fun`. -/
noncomputable def optimize_budget (b : ℝ) : (ℝ × ℝ) × ℝ :=
  return_from_result (minimize_model b)

/-- Tangent-line bound for the exponential: `exp t ≥ exp m * (t - m + 1)`. -/
theorem exp_ge_tangent (t m : ℝ) : Real.exp m * (t - m + 1) ≤ Real.exp t := by
  have h := Real.add_one_le_exp (t - m)
  have hpos := (Real.exp_pos m).le
  calc Real.exp m * (t - m + 1) ≤ Real.exp m * Real.exp (t - m) :=
        mul_le_mul_of_nonneg_left h hpos
    _ = Real.exp t := by rw [← Real.exp_add]; ring_nf

/-- The point `(4b/7, 3b/7)` returned by the modelled solver maximizes
`roi_curve_A x + roi_curve_B y` over the whole constraint line `x + y = b`
(hence in particular over the feasible segment). This justifies modelling the
converged solver by that point. -/
theorem minimize_model_is_optimal (b x y : ℝ) (hxy : x + y = b) :
    roi_curve_A x + roi_curve_B y ≤
      roi_curve_A (4 * b / 7) + roi_curve_B (3 * b / 7) := by
  have hx : x = b - y := by linarith
  subst hx
  have ha := exp_ge_tangent (-0.0003 * (b - y)) (-0.0012 * b / 7)
  have hc := exp_ge_tangent (-0.0004 * y) (-0.0012 * b / 7)
  have hm := (Real.exp_pos (-0.0012 * b / 7)).le
  unfold roi_curve_A roi_curve_B
  rw [show (-0.0003 * (4 * b / 7) : ℝ) = -0.0012 * b / 7 by ring,
      show (-0.0004 * (3 * b / 7) : ℝ) = -0.0012 * b / 7 by ring]
  nlinarith [ha, hc, hm]

/-- Model of NumPy's global random-generator state. `np.random.seed(seed)`
(main.py line 21) overwrites the whole state with a function of the seed. -/
def npSeed (seed : Nat) : Nat := seed

/-- Model of one draw from `np.random.normal(loc, scale)` together with the
generator-state update. The actual Mersenne-Twister output is modelled by an
arbitrary fixed deterministic function of the state; every verified claim
about the Sample Generator depends only on this determinism, not on the
distribution of the values. -/
noncomputable def normalStep (loc scale : ℝ) (state : Nat) : ℝ × Nat :=
  (loc + scale * (state : ℝ), state + 1)

/-- `np.random.normal(loc, scale, size=n)`: `n` successive draws threading the
generator state. -/
noncomputable def normalDraws (loc scale : ℝ) : Nat → Nat → List ℝ × Nat
  | 0, s => ([], s)
  | n + 1, s =>
    let p := normalStep loc scale s
    let q := normalDraws loc scale n p.2
    (p.1 :: q.1, q.2)

/-- `generate_campaign_data` from main.py lines 20-24: seed the global
generator (discarding the incoming state `s0`), then draw `n` samples from
Normal(0.15, 0.02) for campaign A and `n` from Normal(0.10, 0.02) for
campaign B. Returns the two sequences and the final generator state. -/
noncomputable def generate_campaign_data (n : Nat) (seed : Nat) (s0 : Nat) :
    (List ℝ × List ℝ) × Nat :=
  let s1 := npSeed seed
  let a := normalDraws 0.15 0.02 n s1
  let b := normalDraws 0.10 0.02 n a.2
  ((a.1, b.1), b.2)

/-- `np.mean` as used inside `ttest_ind`: the mean of an empty array is NaN,
modelled as `none`. -/
noncomputable def npMean (l : List ℝ) : Option ℝ :=
  if l.length = 0 then none else some (l.sum / l.length)

/-- `np.var(l, ddof=1)` as used inside `ttest_ind`: the unbiased sample
variance; NaN (empty or single-element array, a `0/0`) is modelled as
`none`. -/
noncomputable def npVar1 (l : List ℝ) : Option ℝ :=
  if l.length ≤ 1 then none
  else some ((l.map (fun x => (x - l.sum / l.length) ^ 2)).sum /
    ((l.length : ℝ) - 1))

/-- Density of Student's t-distribution with `df` degrees of freedom. -/
noncomputable def tPdf (df x : ℝ) : ℝ :=
  (Real.Gamma ((df + 1) / 2) /
    (Real.sqrt (df * Real.pi) * Real.Gamma (df / 2))) *
    (1 + x ^ 2 / df) ^ (-((df + 1) / 2) : ℝ)

/-- Survival function of Student's t-distribution with `df` degrees of
freedom: the upper-tail probability beyond `x`. -/
noncomputable def tSF (df x : ℝ) : ℝ :=
  ∫ u in Set.Ioi x, tPdf df u

/-- Model of `scipy.stats.ttest_ind(a, b)` with its documented default
`equal_var=True`: the pooled-variance (Student) two-sided independent
two-sample t-test, following the structure of the SciPy implementation:
`df = n1 + n2 - 2`, `svar = ((n1-1)*v1 + (n2-1)*v2) / df`,
`t = (m1 - m2) / sqrt(svar * (1/n1 + 1/n2))`, `p = 2 * sf(|t|, df)`.
Non-finite float results (NaN from empty/singleton samples, or a zero
denominator) are modelled as `none`. -/
noncomputable def ttest_ind (a b : List ℝ) : Option ℝ × Option ℝ :=
  match npMean a, npMean b, npVar1 a, npVar1 b with
  | some m1, some m2, some v1, some v2 =>
    let n1 : ℝ := a.length
    let n2 : ℝ := b.length
    let df := n1 + n2 - 2
    let svar := ((n1 - 1) * v1 + (n2 - 1) * v2) / df
    let denom := Real.sqrt (svar * (1 / n1 + 1 / n2))
    if denom = 0 then (none, none)
    else
      let t := (m1 - m2) / denom
      (some t, some (2 * tSF df |t|))
  | _, _, _, _ => (none, none)

/-- `ab_test` from main.py lines 50-52: `t_stat, p_val = ttest_ind(data_A, data_B)`. -/
noncomputable def ab_test (data_A data_B : List ℝ) : Option ℝ × Option ℝ :=
  ttest_ind data_A data_B

/-- `forecast_revenue` from main.py lines 56-59: `monthly_budget = budget_A / 12`
then `quad(lambda t: roi_curve_A(monthly_budget), 0, 12)`, modelled as the
interval integral of the constant integrand over `[0, 12]`. -/
noncomputable def forecast_revenue (budget_A : ℝ) : ℝ :=
  ∫ _t in (0:ℝ)..12, roi_curve_A (budget_A / 12)

/-- Outcome of `main` (main.py lines 63-101): either one of the two boundary
rejections (each printing a user-facing error and returning before the
pipeline runs), or the pipeline's results: allocated spends, max ROI, the
(t, p) pair and the forecast. -/
inductive MainOutcome where
  | invalidInput : MainOutcome
  | nonPositive : MainOutcome
  | results : (ℝ × ℝ) → ℝ → (Option ℝ × Option ℝ) → ℝ → MainOutcome

/-- `main` from main.py lines 63-101. `user_input` is the parsed float
(`none` when `float(input(...))` raises ValueError); `s0` is the incoming
global generator state. Non-numeric input and non-positive input each return
early with an error message; otherwise the pipeline runs: generate data,
optimize, A/B-test, forecast. -/
noncomputable def main (user_input : Option ℝ) (s0 : Nat) : MainOutcome :=
  match user_input with
  | none => MainOutcome.invalidInput
  | some b =>
    if b ≤ 0 then MainOutcome.nonPositive
    else
      let data := (generate_campaign_data 100 42 s0).1
      let opt := optimize_budget b
      let test := ab_test data.1 data.2
      let fc := forecast_revenue opt.1.1
      MainOutcome.results opt.1 opt.2 test fc

/-- The forecast's closed form: the interval integral of the constant
integrand evaluates to `12 * roi_curve_A (s / 12)`. Shared helper. -/
theorem forecast_revenue_eq (s : ℝ) :
    forecast_revenue s = 12 * roi_curve_A (s / 12) := by
  unfold forecast_revenue
  rw [intervalIntegral.integral_const]
  norm_num

/-- C1: for every total_budget > 0, the spends returned by `optimize_budget`
sum to the budget (exactly, hence within any tolerance) and both lie in
`[0, total_budget]`. -/
theorem spends_sum_to_budget_and_in_bounds (b : ℝ) (hb : 0 < b) :
    (optimize_budget b).1.1 + (optimize_budget b).1.2 = b ∧
    0 ≤ (optimize_budget b).1.1 ∧ (optimize_budget b).1.1 ≤ b ∧
    0 ≤ (optimize_budget b).1.2 ∧ (optimize_budget b).1.2 ≤ b := by
  simp only [optimize_budget, minimize_model, return_from_result]
  refine ⟨by ring, by linarith, by linarith, by linarith, by linarith⟩

/-- Witness for C1 at total_budget = 7. -/
theorem spends_sum_to_budget_and_in_bounds_witness :
    (0 : ℝ) < 7 ∧
    ((optimize_budget 7).1.1 + (optimize_budget 7).1.2 = 7 ∧
     0 ≤ (optimize_budget 7).1.1 ∧ (optimize_budget 7).1.1 ≤ 7 ∧
     0 ≤ (optimize_budget 7).1.2 ∧ (optimize_budget 7).1.2 ≤ 7) :=
  ⟨by norm_num, spends_sum_to_budget_and_in_bounds 7 (by norm_num)⟩

/-- C2: for every total_budget > 0, the reported max combined return equals
`return_A(spend_A) + return_B(spend_B)` recomputed from the returned spends
with the contract formulas. -/
theorem max_return_recomputed_from_spends (b : ℝ) (hb : 0 < b) :
    (optimize_budget b).2 =
      2000 * (1 - Real.exp (-0.0003 * (optimize_budget b).1.1)) +
      1500 * (1 - Real.exp (-0.0004 * (optimize_budget b).1.2)) := by
  simp [optimize_budget, minimize_model, return_from_result, neg_total_roi,
    roi_curve_A, roi_curve_B]

/-- Witness for C2 at total_budget = 7. -/
theorem max_return_recomputed_from_spends_witness :
    (0 : ℝ) < 7 ∧
    (optimize_budget 7).2 =
      2000 * (1 - Real.exp (-0.0003 * (optimize_budget 7).1.1)) +
      1500 * (1 - Real.exp (-0.0004 * (optimize_budget 7).1.2)) :=
  ⟨by norm_num, max_return_recomputed_from_spends 7 (by norm_num)⟩

/-- C3 counterexample: a solver result with `success = false` (here the
degenerate all-zero result) is still turned into a normal (spends, return)
value by the code's `return result.x, -result.fun`; non-convergence is not
surfaced. -/
theorem nonconverged_solver_result_returned_normally :
    (OptimizeResult.mk 0 0 0 false).success = false ∧
    return_from_result ⟨0, 0, 0, false⟩ = ((0, 0), 0) := by
  refine ⟨rfl, ?_⟩
  simp [return_from_result]

/-- C3 (amended): `optimize_budget`'s result handling never inspects the
solver's convergence flag: the value returned is the same for a converged and
a non-converged solver result, so solver failure is not surfaced distinctly
and a degenerate allocation would be returned silently. -/
theorem solver_success_flag_ignored (x1 x2 f : ℝ) (s1 s2 : Bool) :
    return_from_result ⟨x1, x2, f, s1⟩ = return_from_result ⟨x1, x2, f, s2⟩ := rfl

/-- Witness for the amended C3 at a concrete non-converged / converged pair. -/
theorem solver_success_flag_ignored_witness :
    return_from_result ⟨1, 2, 3, false⟩ = return_from_result ⟨1, 2, 3, true⟩ :=
  solver_success_flag_ignored 1 2 3 false true

/-- C4: for every spend_A ≥ 0, the forecast equals the closed form
`12 * 2000 * (1 - exp (-0.0003 * spend_A / 12))` (exactly, hence within any
tolerance). -/
theorem forecast_matches_closed_form (s : ℝ) (hs : 0 ≤ s) :
    forecast_revenue s = 12 * (2000 * (1 - Real.exp (-0.0003 * (s / 12)))) := by
  rw [forecast_revenue_eq]
  unfold roi_curve_A
  ring

/-- Witness for C4 at spend_A = 12. -/
theorem forecast_matches_closed_form_witness :
    (0 : ℝ) ≤ 12 ∧
    forecast_revenue 12 = 12 * (2000 * (1 - Real.exp (-0.0003 * (12 / 12)))) :=
  ⟨by norm_num, forecast_matches_closed_form 12 (by norm_num)⟩

/-- C5: a boundary input that is non-numeric (`none`) or ≤ 0 is rejected with
a user-facing error outcome, and `main` never produces a pipeline `results`
value for such input (no allocation, test or forecast occurs). -/
theorem invalid_budget_rejected_at_boundary (inp : Option ℝ) (s0 : Nat)
    (h : inp = none ∨ ∃ v, inp = some v ∧ v ≤ 0) :
    (main inp s0 = MainOutcome.invalidInput ∨ main inp s0 = MainOutcome.nonPositive) ∧
    ∀ spends r tp fc, main inp s0 ≠ MainOutcome.results spends r tp fc := by
  rcases h with h | ⟨v, hv, hle⟩
  · subst h
    exact ⟨Or.inl rfl, fun _ _ _ _ => by simp [main]⟩
  · subst hv
    refine ⟨Or.inr ?_, fun spends r tp fc => ?_⟩
    · simp [main, hle]
    · simp [main, hle]

/-- Witness for C5 at input `some (-1)`. -/
theorem invalid_budget_rejected_at_boundary_witness :
    ((some (-1 : ℝ) = none ∨ ∃ v, some (-1 : ℝ) = some v ∧ v ≤ 0) ∧
     ((main (some (-1)) 0 = MainOutcome.invalidInput ∨
       main (some (-1)) 0 = MainOutcome.nonPositive) ∧
      ∀ spends r tp fc, main (some (-1)) 0 ≠ MainOutcome.results spends r tp fc)) :=
  ⟨Or.inr ⟨-1, rfl, by norm_num⟩,
   invalid_budget_rejected_at_boundary (some (-1)) 0 (Or.inr ⟨-1, rfl, by norm_num⟩)⟩

/-- C6 counterexample: with a requested sample count of zero the generator
returns two empty samples and the significance test returns the NaN pair
(`none` models NaN) as a normal value; no error is raised. -/
theorem empty_sample_yields_silent_nan :
    (generate_campaign_data 0 42 0).1 = ([], []) ∧
    ab_test [] [] = (none, none) := by
  constructor
  · rfl
  · rfl

/-- C6 (amended): for every seed and incoming generator state, requesting
zero samples makes the significance test silently evaluate to the NaN pair
(`(none, none)`); no distinct EmptySample error exists in the code. -/
theorem zero_count_significance_is_nan (seed s0 : Nat) :
    ab_test ((generate_campaign_data 0 seed s0).1).1
      ((generate_campaign_data 0 seed s0).1).2 = (none, none) := rfl

/-- Witness for the amended C6 at seed 42 and incoming state 0. -/
theorem zero_count_significance_is_nan_witness :
    ab_test ((generate_campaign_data 0 42 0).1).1
      ((generate_campaign_data 0 42 0).1).2 = (none, none) :=
  zero_count_significance_is_nan 42 0

/-- C7: the Sample Generator is deterministic: for every seed and count the
generated pair of sequences is independent of the incoming global generator
state (the call re-seeds first), so two calls with the same seed and count
agree; consequently the Significance Tester yields identical results on
them. -/
theorem generator_deterministic (n seed s s' : Nat) :
    (generate_campaign_data n seed s).1 = (generate_campaign_data n seed s').1 ∧
    ab_test ((generate_campaign_data n seed s).1).1
        ((generate_campaign_data n seed s).1).2 =
      ab_test ((generate_campaign_data n seed s').1).1
        ((generate_campaign_data n seed s').1).2 :=
  ⟨rfl, rfl⟩

/-- Witness for C7 at n = 3, seed = 42, incoming states 0 and 5. -/
theorem generator_deterministic_witness :
    (generate_campaign_data 3 42 0).1 = (generate_campaign_data 3 42 5).1 ∧
    ab_test ((generate_campaign_data 3 42 0).1).1
        ((generate_campaign_data 3 42 0).1).2 =
      ab_test ((generate_campaign_data 3 42 5).1).1
        ((generate_campaign_data 3 42 5).1).2 :=
  generator_deterministic 3 42 0 5

/-- C8: the optimum value is monotone in the budget: for 0 < b1 ≤ b2 the max
combined return at b2 is at least the one at b1. -/
theorem max_return_monotone (b1 b2 : ℝ) (h1 : 0 < b1) (h12 : b1 ≤ b2) :
    (optimize_budget b1).2 ≤ (optimize_budget b2).2 := by
  simp only [optimize_budget, minimize_model, return_from_result, neg_total_roi,
    neg_neg]
  unfold roi_curve_A roi_curve_B
  have e1 : Real.exp (-0.0003 * (4 * b2 / 7)) ≤ Real.exp (-0.0003 * (4 * b1 / 7)) :=
    Real.exp_le_exp.mpr (by nlinarith)
  have e2 : Real.exp (-0.0004 * (3 * b2 / 7)) ≤ Real.exp (-0.0004 * (3 * b1 / 7)) :=
    Real.exp_le_exp.mpr (by nlinarith)
  nlinarith [e1, e2]

/-- Witness for C8 at b1 = 1, b2 = 2. -/
theorem max_return_monotone_witness :
    ((0 : ℝ) < 1 ∧ (1 : ℝ) ≤ 2) ∧
    (optimize_budget 1).2 ≤ (optimize_budget 2).2 :=
  ⟨⟨by norm_num, by norm_num⟩, max_return_monotone 1 2 (by norm_num) (by norm_num)⟩

/-- C9: the response curves are total with no guard, and for every negative
spend both curves return a strictly negative value; the forecaster applied to
a negative spend likewise returns a strictly negative cumulative revenue. -/
theorem negative_spend_gives_negative_return (s : ℝ) (hs : s < 0) :
    roi_curve_A s < 0 ∧ roi_curve_B s < 0 ∧ forecast_revenue s < 0 := by
  have key : ∀ r : ℝ, 0 < r → 1 < Real.exp r := by
    intro r hr
    have := Real.exp_lt_exp.mpr hr
    rwa [Real.exp_zero] at this
  have hA : ∀ r : ℝ, r < 0 → roi_curve_A r < 0 := by
    intro r hr
    have h1 : 1 < Real.exp (-0.0003 * r) := key _ (by nlinarith)
    unfold roi_curve_A
    nlinarith
  refine ⟨hA s hs, ?_, ?_⟩
  · have h1 : 1 < Real.exp (-0.0004 * s) := key _ (by nlinarith)
    unfold roi_curve_B
    nlinarith
  · rw [forecast_revenue_eq]
    have := hA (s / 12) (by linarith)
    linarith

/-- Witness for C9 at spend = -1. -/
theorem negative_spend_gives_negative_return_witness :
    (-1 : ℝ) < 0 ∧
    (roi_curve_A (-1) < 0 ∧ roi_curve_B (-1) < 0 ∧ forecast_revenue (-1) < 0) :=
  ⟨by norm_num, negative_spend_gives_negative_return (-1) (by norm_num)⟩

/-- Sample mean, written as the claim states it (spec-side definition for the
refinement comparison in C10). -/
noncomputable def specMean (l : List ℝ) : ℝ := l.sum / l.length

/-- Unbiased sample variance (ddof = 1), as the claim states it (spec-side). -/
noncomputable def specVar (l : List ℝ) : ℝ :=
  (l.map (fun x => (x - specMean l) ^ 2)).sum / ((l.length : ℝ) - 1)

/-- Pooled variance over `|A| + |B| - 2` degrees of freedom (spec-side). -/
noncomputable def pooledVar (a b : List ℝ) : ℝ :=
  (((a.length : ℝ) - 1) * specVar a + ((b.length : ℝ) - 1) * specVar b) /
    ((a.length : ℝ) + (b.length : ℝ) - 2)

/-- Pooled standard deviation `s_p` (spec-side). -/
noncomputable def pooledSD (a b : List ℝ) : ℝ := Real.sqrt (pooledVar a b)

/-- Student's equal-variance t statistic
`(mean A - mean B) / (s_p * sqrt (1/|A| + 1/|B|))`, as the claim states it
(spec-side). -/
noncomputable def studentT (a b : List ℝ) : ℝ :=
  (specMean a - specMean b) /
    (pooledSD a b * Real.sqrt (1 / (a.length : ℝ) + 1 / (b.length : ℝ)))

/-- C10: on non-degenerate samples (at least two observations each and a
positive pooled variance) `ab_test` returns exactly Student's equal-variance
two-sample t statistic and the two-sided p-value from the t-distribution with
`|A| + |B| - 2` degrees of freedom. -/
theorem ab_test_is_student_ttest (a b : List ℝ)
    (ha : 2 ≤ a.length) (hb : 2 ≤ b.length) (hv : 0 < pooledVar a b) :
    ab_test a b =
      (some (studentT a b),
       some (2 * tSF ((a.length : ℝ) + (b.length : ℝ) - 2) |studentT a b|)) := by
  have hna : a.length ≠ 0 := by omega
  have hnb : b.length ≠ 0 := by omega
  have hma : npMean a = some (specMean a) := by
    unfold npMean specMean
    rw [if_neg hna]
  have hmb : npMean b = some (specMean b) := by
    unfold npMean specMean
    rw [if_neg hnb]
  have hva : npVar1 a = some (specVar a) := by
    unfold npVar1 specVar specMean
    rw [if_neg (by omega)]
  have hvb : npVar1 b = some (specVar b) := by
    unfold npVar1 specVar specMean
    rw [if_neg (by omega)]
  have hn1 : (0 : ℝ) < (a.length : ℝ) := by positivity
  have hn2 : (0 : ℝ) < (b.length : ℝ) := by
    exact_mod_cast Nat.pos_of_ne_zero hnb
  have hk : (0 : ℝ) < 1 / (a.length : ℝ) + 1 / (b.length : ℝ) := by positivity
  have hsvar :
      ((((a.length : ℝ)) - 1) * specVar a + (((b.length : ℝ)) - 1) * specVar b) /
        (((a.length : ℝ)) + ((b.length : ℝ)) - 2) = pooledVar a b := rfl
  have hdenom :
      Real.sqrt (pooledVar a b * (1 / (a.length : ℝ) + 1 / (b.length : ℝ))) ≠ 0 :=
    ne_of_gt (Real.sqrt_pos.mpr (mul_pos hv hk))
  unfold ab_test ttest_ind
  rw [hma, hmb, hva, hvb]
  simp only []
  rw [hsvar, if_neg hdenom]
  have hsplit :
      Real.sqrt (pooledVar a b * (1 / (a.length : ℝ) + 1 / (b.length : ℝ))) =
        pooledSD a b * Real.sqrt (1 / (a.length : ℝ) + 1 / (b.length : ℝ)) := by
    unfold pooledSD
    exact Real.sqrt_mul hv.le _
  rw [hsplit]
  rfl

/-- Witness for C10 at A = [0, 2], B = [0, 4] (pooled variance 5). -/
theorem ab_test_is_student_ttest_witness :
    (2 ≤ ([0, 2] : List ℝ).length ∧ 2 ≤ ([0, 4] : List ℝ).length ∧
      0 < pooledVar [0, 2] [0, 4]) ∧
    ab_test [0, 2] [0, 4] =
      (some (studentT [0, 2] [0, 4]),
       some (2 * tSF ((([0, 2] : List ℝ).length : ℝ) +
         (([0, 4] : List ℝ).length : ℝ) - 2) |studentT [0, 2] [0, 4]|)) :=
  ⟨⟨by norm_num, by norm_num,
    by norm_num [pooledVar, specVar, specMean]⟩,
   ab_test_is_student_ttest [0, 2] [0, 4] (by norm_num) (by norm_num)
     (by norm_num [pooledVar, specVar, specMean])⟩

end Midterm
